import Mathlib

/-!
Shallow embedding of the AWS drift-detection script
(`scripts/validate_aws_diff.py`): template parsing
(`TemplateParser.get_lambda_functions`), structural diffing
(`DiffEngine.compare_lambda_function`, `DiffEngine._compare_dicts`), and the
orchestration / decision logic (`DriftValidator.validate`,
`DriftValidator._validate_lambda_function`, `main`).

Python dictionaries holding a fixed set of keys are embedded as structures
whose fields are `Option`-typed (`dict.get` returns `None` for an absent
key); dynamically-typed scalar values are embedded as the sum type `Val`;
string-keyed dictionaries with open key sets (environment variables) are
embedded as association lists; Python `set` values are embedded as `Finset`.
The boto3 fetcher is an opaque capability `String → Option Config`, and the
interactive `input()` call is a `String` argument; the number of prompts
issued is returned alongside the decision.
-/

/-- A dynamically-typed scalar value as it appears in a parsed YAML template
or an AWS API response: a string or an integer. -/
inductive Val where
  | vStr : String → Val
  | vInt : Int → Val
deriving DecidableEq, Repr

/-- The `CodeInfo` sub-dictionary built by `AWSResourceFetcher.get_lambda_function`
(keys `CodeSha256`, `CodeSize`, `LastModified`). It is carried in the actual
configuration but never read by the diff engine. -/
structure CodeInfo where
  CodeSha256 : Option Val
  CodeSize : Option Val
  LastModified : Option Val
deriving DecidableEq, Repr

/-- A Lambda function configuration dictionary. This is the union of the key
sets produced by `TemplateParser.get_lambda_functions` (expected side: keys
`Runtime`, `Handler`, `MemorySize`, `Timeout`, `Environment`, `Layers`,
`Role`, `Policies`) and by `AWSResourceFetcher.get_lambda_function` (actual
side: keys `FunctionName`, `Runtime`, `Handler`, `MemorySize`, `Timeout`,
`Environment`, `Layers`, `Role`, `CodeInfo`). Every field is optional
because `dict.get` yields `None` for a missing key; environment variables
are an association list of string keys to string values. -/
structure Config where
  FunctionName : Option Val
  Runtime : Option Val
  Handler : Option Val
  MemorySize : Option Val
  Timeout : Option Val
  Environment : List (String × String)
  Layers : List String
  Role : Option Val
  Policies : Option (List Val)
  CodeInfo : Option CodeInfo
deriving DecidableEq, Repr

/-- One difference record, one constructor per f-string format produced by
`DiffEngine`. In the spec's DiffEntry taxonomy: `fieldMismatch` and
`dictMismatch` are `scalar-mismatch` (on a top-level field resp. under a
dotted path), `notInTemplate` is `extra-in-actual`, `missingInAWS` is
`missing-in-actual`, and `missingLayers` / `extraLayers` are the two
aggregate `set-mismatch` forms, each carrying the set of layers it lists. -/
inductive DiffEntry where
  | fieldMismatch (field : String) (expectedVal actualVal : Option Val)
  | notInTemplate (path : String) (actualVal : String)
  | missingInAWS (path : String) (expectedVal : String)
  | dictMismatch (path : String) (expectedVal actualVal : String)
  | missingLayers (layers : Finset String)
  | extraLayers (layers : Finset String)
deriving DecidableEq

/-- The dotted path of an environment-dictionary difference entry, `none` for
the scalar-field and layer-set entries. -/
def DiffEntry.path : DiffEntry → Option String
  | .notInTemplate p _ => some p
  | .missingInAWS p _ => some p
  | .dictMismatch p _ _ => some p
  | _ => none

/-- Whether a difference entry is one of the two aggregate layer-set entries. -/
def DiffEntry.isLayerEntry : DiffEntry → Bool
  | .missingLayers _ => true
  | .extraLayers _ => true
  | _ => false

/-- The loop body of `DiffEngine._compare_dicts(expected, actual, context)`:
for one key, when the looked-up values differ, emit one entry under
`context ++ "." ++ key` — `notInTemplate` when the key is absent from
`expected`, `missingInAWS` when absent from `actual`, `dictMismatch` when
present in both with different values. -/
def compare_dict_key (expected actual : List (String × String))
    (context key : String) : Option DiffEntry :=
  let expected_val := expected.lookup key
  let actual_val := actual.lookup key
  if expected_val ≠ actual_val then
    match expected_val, actual_val with
    | none, some v => some (DiffEntry.notInTemplate (context ++ "." ++ key) v)
    | some v, none => some (DiffEntry.missingInAWS (context ++ "." ++ key) v)
    | some e, some a => some (DiffEntry.dictMismatch (context ++ "." ++ key) e a)
    | none, none => none
  else none

/-- The iteration of `_compare_dicts` over the union of the key sets, one
`compare_dict_key` call per key. -/
def compare_dicts (expected actual : List (String × String)) (context : String) :
    List DiffEntry :=
  let all_keys := (expected.map Prod.fst ++ actual.map Prod.fst).dedup
  all_keys.filterMap (compare_dict_key expected actual context)

/-- The layer comparison block of `DiffEngine.compare_lambda_function`: both
`Layers` lists are converted to sets; if the sets differ, the nonempty ones
among `expected \ actual` (missing) and `actual \ expected` (extra) each
yield one aggregate entry. -/
def compare_layers (expectedLayers actualLayers : List String) : List DiffEntry :=
  let expected_layers := expectedLayers.toFinset
  let actual_layers := actualLayers.toFinset
  if expected_layers ≠ actual_layers then
    let missing_layers := expected_layers \ actual_layers
    let extra_layers := actual_layers \ expected_layers
    (if missing_layers ≠ ∅ then [DiffEntry.missingLayers missing_layers] else []) ++
      (if extra_layers ≠ ∅ then [DiffEntry.extraLayers extra_layers] else [])
  else []

/-- The basic-configuration loop of `DiffEngine.compare_lambda_function`: the
four scalar keys `Runtime`, `Handler`, `MemorySize`, `Timeout` are compared
by equality, each mismatch yielding one entry. -/
def compare_scalars (expected actual : Config) : List DiffEntry :=
  [("Runtime", expected.Runtime, actual.Runtime),
   ("Handler", expected.Handler, actual.Handler),
   ("MemorySize", expected.MemorySize, actual.MemorySize),
   ("Timeout", expected.Timeout, actual.Timeout)].filterMap
    fun c =>
      if c.2.1 ≠ c.2.2 then some (DiffEntry.fieldMismatch c.1 c.2.1 c.2.2) else none

/-- The `Environment` block of a template resource's properties, a wrapper
dictionary whose `Variables` key holds the environment mapping. -/
structure EnvironmentBlock where
  Variables : Option (List (String × String))
deriving DecidableEq, Repr

/-- The `Properties` dictionary of a template resource, with the keys read by
`TemplateParser.get_lambda_functions`. -/
structure ResourceProperties where
  FunctionName : Option String
  Runtime : Option Val
  Handler : Option Val
  MemorySize : Option Val
  Timeout : Option Val
  Environment : Option EnvironmentBlock
  Layers : Option (List String)
  Role : Option Val
  Policies : Option (List Val)
deriving DecidableEq, Repr

/-- One entry of the template's `Resources` map: a `Type` discriminator and a
`Properties` dictionary. -/
structure Resource where
  Type' : Option String
  Properties : ResourceProperties
deriving DecidableEq, Repr

/-- A parsed SAM template: its `Resources` map as an ordered association list
of logical id to resource. -/
structure Template where
  Resources : List (String × Resource)
deriving DecidableEq, Repr

/-- Insertion into a Python dictionary modelled as an association list:
overwrite in place when the key is present, append otherwise. -/
def dict_insert (m : List (String × Config)) (k : String) (v : Config) :
    List (String × Config) :=
  if (m.lookup k).isSome then
    m.map fun p => if p.1 = k then (k, v) else p
  else m ++ [(k, v)]

/-- The loop body of `TemplateParser.get_lambda_functions()`: when the
resource's `Type` is `AWS::Serverless::Function`, build a `Config` from its
properties (with defaults `MemorySize = 128`, `Timeout = 3`, empty
environment and layers) and store it under the resource's `FunctionName`
property, falling back to its logical id; otherwise leave the map
unchanged. -/
def add_lambda_function (functions : List (String × Config))
    (entry : String × Resource) : List (String × Config) :=
  let logical_id := entry.1
  let resource := entry.2
  if resource.Type' = some "AWS::Serverless::Function" then
    let props := resource.Properties
    dict_insert functions (props.FunctionName.getD logical_id)
      { FunctionName := none
        Runtime := props.Runtime
        Handler := props.Handler
        MemorySize := props.MemorySize.getD (Val.vInt 128)
        Timeout := props.Timeout.getD (Val.vInt 3)
        Environment := ((props.Environment.map EnvironmentBlock.Variables).join).getD []
        Layers := props.Layers.getD []
        Role := props.Role
        Policies := some (props.Policies.getD [])
        CodeInfo := none }
  else functions

/-- The iteration of `get_lambda_functions` over the `Resources` map. -/
def get_lambda_functions (tmpl : Template) : List (String × Config) :=
  tmpl.Resources.foldl add_lambda_function []

/-- `DiffEngine.compare_lambda_function(name, expected, actual)`: when
`actual` is `None` return `([], true)` (new function); otherwise return the
scalar, environment and layer differences with `false`. The `name` argument
is unused, as in the source. -/
def compare_lambda_function (name : String) (expected : Config)
    (actual : Option Config) : List DiffEntry × Bool :=
  match actual with
  | none => ([], true)
  | some a =>
      let diffs := compare_scalars expected a
      let diffs := diffs ++ compare_dicts expected.Environment a.Environment "Environment"
      let diffs := diffs ++ compare_layers expected.Layers a.Layers
      (diffs, false)

/-- The per-function classification of `DriftValidator._validate_lambda_function`
(spec §3 Outcome): `NEW` when the fetch found nothing, `DRIFTED` when
differences were reported (the branch that sets `has_differences`), `MATCH`
otherwise. -/
inductive Outcome where
  | NEW
  | MATCH
  | DRIFTED
deriving DecidableEq, Repr

/-- The branch structure of `DriftValidator._validate_lambda_function`: fetch
the actual configuration, compare, and classify — `if is_new_function` →
`NEW`, `elif diffs` → `DRIFTED` (setting `has_differences`), `else` →
`MATCH`. -/
def validate_lambda_function (function_name : String) (expected_config : Config)
    (fetch : String → Option Config) : Outcome :=
  let actual_config := fetch function_name
  let r := compare_lambda_function function_name expected_config actual_config
  if r.2 then Outcome.NEW
  else if !r.1.isEmpty then Outcome.DRIFTED
  else Outcome.MATCH

/-- Python's `str.strip()`: remove leading and trailing whitespace. -/
def str_strip (s : String) : String :=
  ⟨((s.data.dropWhile Char.isWhitespace).reverse.dropWhile Char.isWhitespace).reverse⟩

/-- Python's `str.lower()`: lowercase every character. -/
def str_lower (s : String) : String :=
  ⟨s.data.map Char.toLower⟩

/-- `DriftValidator.validate()`, with the AWS fetcher abstracted as
`fetch : String → Option Config` and the interactive `input()` line as
`response`. Returns the boolean result together with the number of operator
prompts issued. An empty expected-function map returns `true` at once;
otherwise every function is classified, and when at least one is `DRIFTED`
the result is `false` in non-interactive mode, and in interactive mode a
single prompt decides: `true` exactly when the stripped, lowercased response
is `y` or `yes`. -/
def validate (tmpl : Template) (fetch : String → Option Config)
    (interactive : Bool) (response : String) : Bool × Nat :=
  let expected_functions := get_lambda_functions tmpl
  if expected_functions.isEmpty then (true, 0)
  else
    let has_differences := expected_functions.any fun p =>
      validate_lambda_function p.1 p.2 fetch == Outcome.DRIFTED
    if has_differences then
      if interactive then
        let r := str_lower (str_strip response)
        (r == "y" || r == "yes", 1)
      else (false, 0)
    else (true, 0)

/-- `main()`: the effective mode is `interactive and not ci_mode`; the process
exit code is `0` when `validate` returns success and `1` otherwise. Returns
(exit code, number of prompts issued). -/
def main_run (tmpl : Template) (fetch : String → Option Config)
    (interactive ci_mode : Bool) (response : String) : Nat × Nat :=
  let interactive := interactive && !ci_mode
  let r := validate tmpl fetch interactive response
  (if r.1 then 0 else 1, r.2)

/-- Whether at least one expected function of the template is classified
`DRIFTED` against the fetched state (the spec's aggregate `anyDrift`). -/
def any_drifted (tmpl : Template) (fetch : String → Option Config) : Bool :=
  (get_lambda_functions tmpl).any fun p =>
    validate_lambda_function p.1 p.2 fetch == Outcome.DRIFTED

/-- Both configurations agree on every field except possibly `Role` and
`Policies`. -/
def same_except_role_policies (c₁ c₂ : Config) : Prop :=
  c₁.FunctionName = c₂.FunctionName ∧ c₁.Runtime = c₂.Runtime ∧
  c₁.Handler = c₂.Handler ∧ c₁.MemorySize = c₂.MemorySize ∧
  c₁.Timeout = c₂.Timeout ∧ c₁.Environment = c₂.Environment ∧
  c₁.Layers = c₂.Layers ∧ c₁.CodeInfo = c₂.CodeInfo

/-- Lifted to optional configurations: both absent, or both present and equal
except possibly in `Role` and `Policies`. -/
def same_except_role_policies_opt : Option Config → Option Config → Prop
  | none, none => True
  | some a, some b => same_except_role_policies a b
  | _, _ => False

/-- A concrete configuration used to instantiate hypotheses of the theorems
below. -/
def sampleConfig : Config :=
  { FunctionName := none
    Runtime := some (Val.vStr "python3.13")
    Handler := some (Val.vStr "app.lambda_handler")
    MemorySize := some (Val.vInt 128)
    Timeout := some (Val.vInt 3)
    Environment := [("STAGE", "test")]
    Layers := ["arn:aws:lambda:us-east-1:123456789012:layer:test-layer:1"]
    Role := none
    Policies := none
    CodeInfo := none }

/-- The classification made by `_validate_lambda_function`, written as a
case split on the fetch result and on emptiness of the diff list. -/
theorem validate_lambda_function_eq (function_name : String)
    (expected_config : Config) (fetch : String → Option Config) :
    validate_lambda_function function_name expected_config fetch =
      match fetch function_name with
      | none => Outcome.NEW
      | some a =>
          if (compare_lambda_function function_name expected_config (some a)).1 = []
          then Outcome.MATCH else Outcome.DRIFTED := by
  unfold validate_lambda_function
  cases h : fetch function_name with
  | none => rfl
  | some a =>
      have h1 : ¬((compare_lambda_function function_name expected_config (some a)).2 = true) := by
        simp [compare_lambda_function]
      rw [if_neg h1]
      cases hl : (compare_lambda_function function_name expected_config (some a)).1 with
      | nil => simp [hl]
      | cons x xs => simp [hl]

/-- Claim C1: when the actual configuration is absent,
`compare_lambda_function` returns the empty diff list and `isNew = true`,
unconditionally in the expected configuration and the name — no field-level
comparison is performed. -/
theorem compare_lambda_function_notfound (name : String) (expected : Config) :
    compare_lambda_function name expected none = ([], true) := rfl

/-- Claim C10: the `name` argument of `compare_lambda_function` never
influences the returned diff list or `isNew` flag. -/
theorem compare_lambda_function_ignores_name (n₁ n₂ : String)
    (expected : Config) (actual : Option Config) :
    compare_lambda_function n₁ expected actual =
      compare_lambda_function n₂ expected actual := rfl

/-- Claim C7: comparing any configuration with itself yields the empty diff
list and `isNew = false`. -/
theorem compare_lambda_function_refl (name : String) (X : Config) :
    compare_lambda_function name X (some X) = ([], false) := by
  simp [compare_lambda_function, compare_scalars, compare_dicts, compare_layers,
    compare_dict_key, List.filterMap_eq_nil_iff]

/-- Claim C2: the classification of a function is `NEW` iff the fetched
actual configuration is absent, `MATCH` iff it is present and the diff list
is empty, `DRIFTED` iff it is present and the diff list is non-empty; the
three outcomes are exhaustive (and, the characterizing conditions being
mutually exclusive, so are the outcomes). -/
theorem validate_lambda_function_trichotomy (function_name : String)
    (expected_config : Config) (fetch : String → Option Config) :
    (validate_lambda_function function_name expected_config fetch = Outcome.NEW
        ↔ fetch function_name = none) ∧
    (validate_lambda_function function_name expected_config fetch = Outcome.MATCH
        ↔ (fetch function_name).isSome ∧
          (compare_lambda_function function_name expected_config
            (fetch function_name)).1 = []) ∧
    (validate_lambda_function function_name expected_config fetch = Outcome.DRIFTED
        ↔ (fetch function_name).isSome ∧
          (compare_lambda_function function_name expected_config
            (fetch function_name)).1 ≠ []) ∧
    (validate_lambda_function function_name expected_config fetch = Outcome.NEW ∨
     validate_lambda_function function_name expected_config fetch = Outcome.MATCH ∨
     validate_lambda_function function_name expected_config fetch = Outcome.DRIFTED) := by
  rw [validate_lambda_function_eq]
  cases h : fetch function_name with
  | none => simp [compare_lambda_function]
  | some a =>
      by_cases hd : (compare_lambda_function function_name expected_config (some a)).1 = [] <;>
        simp [hd]

/-- Claim C8: two runs of `compare_lambda_function` whose expected and actual
inputs differ only in `Role` and/or `Policies` return identical results. -/
theorem compare_lambda_function_ignores_role_policies (name : String)
    (e₁ e₂ : Config) (a₁ a₂ : Option Config)
    (he : same_except_role_policies e₁ e₂)
    (ha : same_except_role_policies_opt a₁ a₂) :
    compare_lambda_function name e₁ a₁ = compare_lambda_function name e₂ a₂ := by
  cases a₁ with
  | none =>
      cases a₂ with
      | none => rfl
      | some b => exact absurd ha (by simp [same_except_role_policies_opt])
  | some a =>
      cases a₂ with
      | none => exact absurd ha (by simp [same_except_role_policies_opt])
      | some b =>
          obtain ⟨-, hr, hh, hm, ht, henv, hlay, -⟩ := he
          obtain ⟨-, hr', hh', hm', ht', henv', hlay', -⟩ := ha
          simp only [compare_lambda_function, compare_scalars, hr, hh, hm, ht,
            henv, hlay, hr', hh', hm', ht', henv', hlay']

/-- A template whose only resource is not a function resource. -/
def nonFunctionTemplate : Template :=
  { Resources := [("DataBucket",
      { Type' := some "AWS::S3::Bucket"
        Properties :=
          { FunctionName := none, Runtime := none, Handler := none
            MemorySize := none, Timeout := none, Environment := none
            Layers := none, Role := none, Policies := none } })] }

/-- A template declaring one function, `test-function`, expecting runtime
`python3.13`. -/
def driftedTemplate : Template :=
  { Resources := [("TestFunction",
      { Type' := some "AWS::Serverless::Function"
        Properties :=
          { FunctionName := some "test-function"
            Runtime := some (Val.vStr "python3.13")
            Handler := some (Val.vStr "app.lambda_handler")
            MemorySize := some (Val.vInt 256)
            Timeout := some (Val.vInt 15)
            Environment := none, Layers := none, Role := none
            Policies := none } })] }

/-- A fetcher under which `test-function` exists with runtime `python3.12`,
so the function of `driftedTemplate` is classified `DRIFTED`. -/
def driftedFetch : String → Option Config := fun _ =>
  some { FunctionName := some (Val.vStr "test-function")
         Runtime := some (Val.vStr "python3.12")
         Handler := some (Val.vStr "app.lambda_handler")
         MemorySize := some (Val.vInt 256)
         Timeout := some (Val.vInt 15)
         Environment := [], Layers := [], Role := none, Policies := none
         CodeInfo := none }

/-- In non-interactive mode `validate` returns failure exactly when some
function drifted, and never prompts. -/
theorem validate_noninteractive (tmpl : Template)
    (fetch : String → Option Config) (response : String) :
    validate tmpl fetch false response = (!any_drifted tmpl fetch, 0) := by
  unfold validate any_drifted
  by_cases hE : (get_lambda_functions tmpl).isEmpty
  · have h0 : get_lambda_functions tmpl = [] := by simpa using hE
    simp [h0]
  · simp only [hE, Bool.false_eq_true, if_false, if_neg]
    by_cases hd : (get_lambda_functions tmpl).any fun p =>
        validate_lambda_function p.1 p.2 fetch == Outcome.DRIFTED <;>
      simp [hE, hd]

/-- In interactive mode `validate` prompts exactly once when some function
drifted, succeeding iff the stripped lowercased response is `y` or `yes`,
and otherwise succeeds without prompting. -/
theorem validate_interactive (tmpl : Template)
    (fetch : String → Option Config) (response : String) :
    validate tmpl fetch true response =
      if any_drifted tmpl fetch then
        (str_lower (str_strip response) == "y" ||
          str_lower (str_strip response) == "yes", 1)
      else (true, 0) := by
  unfold validate any_drifted
  by_cases hE : (get_lambda_functions tmpl).isEmpty
  · have h0 : get_lambda_functions tmpl = [] := by simpa using hE
    simp [h0]
  · by_cases hd : (get_lambda_functions tmpl).any fun p =>
        validate_lambda_function p.1 p.2 fetch == Outcome.DRIFTED <;>
      simp [hE, hd]

/-- Claim C9: when no resource of the template has the function `Type`
discriminator, the expected-function map is empty and `validate` returns
success with no prompt, independently of the fetcher (no function is fetched
or classified). -/
theorem validate_empty_template (tmpl : Template)
    (h : ∀ p ∈ tmpl.Resources, p.2.Type' ≠ some "AWS::Serverless::Function") :
    get_lambda_functions tmpl = [] ∧
    ∀ (fetch : String → Option Config) (interactive : Bool) (response : String),
      validate tmpl fetch interactive response = (true, 0) := by
  have key : ∀ (l : List (String × Resource)) (acc : List (String × Config)),
      (∀ p ∈ l, p.2.Type' ≠ some "AWS::Serverless::Function") →
      l.foldl add_lambda_function acc = acc := by
    intro l
    induction l with
    | nil => intro acc _; rfl
    | cons x xs ih =>
        intro acc hall
        rw [List.foldl_cons]
        have hx : add_lambda_function acc x = acc := by
          unfold add_lambda_function
          rw [if_neg (hall x (List.mem_cons_self x xs))]
        rw [hx]
        exact ih acc fun p hp => hall p (List.mem_cons_of_mem x hp)
  have h0 : get_lambda_functions tmpl = [] := key tmpl.Resources [] h
  refine ⟨h0, fun fetch interactive response => ?_⟩
  unfold validate
  simp [h0]

/-- Witness for C9: a template whose single resource is an S3 bucket yields
an empty function map and a clear run. -/
theorem validate_empty_template_witness :
    get_lambda_functions nonFunctionTemplate = [] ∧
    validate nonFunctionTemplate (fun _ => none) false "" = (true, 0) :=
  ⟨(validate_empty_template nonFunctionTemplate (by decide)).1,
   (validate_empty_template nonFunctionTemplate (by decide)).2 (fun _ => none) false ""⟩

/-- Claim C3: whenever the effective mode is non-interactive (`--ci-mode`
set, overriding `--interactive`, or `--interactive` absent), no prompt is
issued and the exit code is `1` iff at least one function is classified
`DRIFTED`; in particular `NEW` functions never make the run exit `1`. -/
theorem main_run_noninteractive (tmpl : Template)
    (fetch : String → Option Config) (interactive ci_mode : Bool)
    (response : String) (h : (interactive && !ci_mode) = false) :
    (main_run tmpl fetch interactive ci_mode response).2 = 0 ∧
    ((main_run tmpl fetch interactive ci_mode response).1 = 1 ↔
      any_drifted tmpl fetch = true) := by
  have hm : main_run tmpl fetch interactive ci_mode response =
      (if (validate tmpl fetch (interactive && !ci_mode) response).1 then 0 else 1,
        (validate tmpl fetch (interactive && !ci_mode) response).2) := rfl
  rw [hm, h, validate_noninteractive]
  by_cases hd : any_drifted tmpl fetch <;> simp [hd]

/-- Witness for C3: with `--interactive` and `--ci-mode` both set, the
drifted scenario exits `1` without prompting. -/
theorem main_run_noninteractive_witness :
    (main_run driftedTemplate driftedFetch true true " y ").2 = 0 ∧
    ((main_run driftedTemplate driftedFetch true true " y ").1 = 1 ↔
      any_drifted driftedTemplate driftedFetch = true) :=
  main_run_noninteractive driftedTemplate driftedFetch true true " y " (by decide)

/-- Counterexample to claim C4 as stated: in interactive mode with drift, the
response `" y "` (surrounding spaces) is not equal to `y` or `yes` even
case-insensitively, so by the claim the run should stay blocked with exit
code `1` — but the code strips whitespace before matching and exits `0`. -/
theorem main_run_interactive_untrimmed_counterexample :
    str_lower " y " ≠ "y" ∧ str_lower " y " ≠ "yes" ∧
    any_drifted driftedTemplate driftedFetch = true ∧
    (main_run driftedTemplate driftedFetch true false " y ").1 = 0 := by
  exact ⟨by decide, by decide, by decide, by decide⟩

/-- Claim C4 (amended: the response is first stripped of surrounding
whitespace, then lowercased): in interactive mode with at least one
`DRIFTED` function the operator is prompted exactly once, and the exit code
is `0` iff the stripped, lowercased response is `y` or `yes`; otherwise
(including empty input) it is `1`. -/
theorem main_run_interactive_override (tmpl : Template)
    (fetch : String → Option Config) (response : String)
    (h : any_drifted tmpl fetch = true) :
    (main_run tmpl fetch true false response).2 = 1 ∧
    ((main_run tmpl fetch true false response).1 = 0 ↔
      str_lower (str_strip response) = "y" ∨
        str_lower (str_strip response) = "yes") := by
  have hm : main_run tmpl fetch true false response =
      (if (validate tmpl fetch true response).1 then 0 else 1,
        (validate tmpl fetch true response).2) := rfl
  rw [hm, validate_interactive, h]
  by_cases h1 : str_lower (str_strip response) = "y" <;>
    by_cases h2 : str_lower (str_strip response) = "yes" <;> simp [h1, h2]

/-- Witness for the amended C4: in the drifted scenario the response `"YES"`
prompts once and exits `0`. -/
theorem main_run_interactive_override_witness :
    (main_run driftedTemplate driftedFetch true false "YES").2 = 1 ∧
    ((main_run driftedTemplate driftedFetch true false "YES").1 = 0 ↔
      str_lower (str_strip "YES") = "y" ∨ str_lower (str_strip "YES") = "yes") :=
  main_run_interactive_override driftedTemplate driftedFetch "YES" (by decide)

/-- Every entry emitted by the scalar-field loop is a `fieldMismatch`: it has
no dotted path and is not a layer entry. -/
theorem compare_scalars_shape (E A : Config) :
    ∀ e ∈ compare_scalars E A, e.path = none ∧ e.isLayerEntry = false := by
  intro e he
  rw [compare_scalars] at he
  simp only [List.mem_filterMap] at he
  obtain ⟨c, -, hc⟩ := he
  split at hc
  · injection hc with h2
    subst h2
    exact ⟨rfl, rfl⟩
  · cases hc

/-- Every entry emitted for a dictionary key carries the dotted path of that
key and is not a layer entry. -/
theorem compare_dict_key_shape (E A : List (String × String)) (ctx key : String) :
    ∀ e, compare_dict_key E A ctx key = some e →
      e.path = some (ctx ++ "." ++ key) ∧ e.isLayerEntry = false := by
  intro e he
  simp only [compare_dict_key] at he
  split at he
  · split at he <;> cases he <;> exact ⟨rfl, rfl⟩
  · cases he

/-- Every entry emitted by the dictionary comparison carries a dotted path
under the given context and is not a layer entry. -/
theorem compare_dicts_shape (E A : List (String × String)) (ctx : String) :
    ∀ e ∈ compare_dicts E A ctx,
      (∃ k, e.path = some (ctx ++ "." ++ k)) ∧ e.isLayerEntry = false := by
  intro e he
  simp only [compare_dicts, List.mem_filterMap] at he
  obtain ⟨k, -, hk⟩ := he
  obtain ⟨hp, hl⟩ := compare_dict_key_shape E A ctx k e hk
  exact ⟨⟨k, hp⟩, hl⟩

/-- Every entry emitted by the layer comparison is a layer entry without a
dotted path. -/
theorem compare_layers_shape (A B : List String) :
    ∀ e ∈ compare_layers A B, e.path = none ∧ e.isLayerEntry = true := by
  intro e he
  simp only [compare_layers] at he
  split at he
  · simp only [List.mem_append] at he
    rcases he with he | he <;> split at he <;>
      simp_all [DiffEntry.path, DiffEntry.isLayerEntry]
  · cases he

/-- The layer comparison in canonical form: one aggregate entry per nonempty
set difference of the deduplicated layer sets. -/
theorem compare_layers_eq (A B : List String) :
    compare_layers A B =
      (if A.toFinset \ B.toFinset ≠ ∅ then
        [DiffEntry.missingLayers (A.toFinset \ B.toFinset)] else []) ++
      (if B.toFinset \ A.toFinset ≠ ∅ then
        [DiffEntry.extraLayers (B.toFinset \ A.toFinset)] else []) := by
  simp only [compare_layers]
  by_cases h : A.toFinset = B.toFinset
  · simp [h, Finset.sdiff_self]
  · rw [if_pos h]

/-- Claim C6: the layer portion of `compare_lambda_function`'s output is
exactly `compare_layers`; it is a function of the two set differences alone
(element order and duplicate counts are irrelevant); it consists of at most
two aggregate entries, one listing the layers expected but missing, one the
layers extra in actual, omitting whichever side is empty; and it is empty
when the two sets are equal. -/
theorem compare_lambda_function_layer_semantics :
    (∀ (name : String) (expected actual : Config),
        (compare_lambda_function name expected (some actual)).1.filter
            DiffEntry.isLayerEntry =
          compare_layers expected.Layers actual.Layers) ∧
    (∀ A B : List String,
        compare_layers A B =
          (if A.toFinset \ B.toFinset ≠ ∅ then
            [DiffEntry.missingLayers (A.toFinset \ B.toFinset)] else []) ++
          (if B.toFinset \ A.toFinset ≠ ∅ then
            [DiffEntry.extraLayers (B.toFinset \ A.toFinset)] else [])) ∧
    (∀ A B A' B' : List String,
        A.toFinset \ B.toFinset = A'.toFinset \ B'.toFinset →
        B.toFinset \ A.toFinset = B'.toFinset \ A'.toFinset →
        compare_layers A B = compare_layers A' B') ∧
    (∀ A B : List String, A.toFinset = B.toFinset → compare_layers A B = []) := by
  refine ⟨?_, compare_layers_eq, ?_, ?_⟩
  · intro name expected actual
    show ((compare_scalars expected actual ++
        compare_dicts expected.Environment actual.Environment "Environment") ++
        compare_layers expected.Layers actual.Layers).filter DiffEntry.isLayerEntry = _
    rw [List.filter_append, List.filter_append]
    rw [List.filter_eq_nil_iff.mpr
        (fun e he => by simp [(compare_scalars_shape expected actual e he).2]),
      List.filter_eq_nil_iff.mpr
        (fun e he => by
          simp [(compare_dicts_shape expected.Environment actual.Environment
            "Environment" e he).2]),
      List.filter_eq_self.mpr
        (fun e he => (compare_layers_shape expected.Layers actual.Layers e he).2)]
    rfl
  · intro A B A' B' h1 h2
    rw [compare_layers_eq, compare_layers_eq, h1, h2]
  · intro A B h
    rw [compare_layers_eq]
    simp [h, Finset.sdiff_self]

/-- Witness for C6 at concrete inputs: reordering and duplicating elements on
both sides leaves the layer diff unchanged. -/
theorem compare_lambda_function_layer_semantics_witness :
    compare_layers ["a", "a", "b"] ["b", "c"] =
      compare_layers ["b", "a"] ["c", "c", "b"] :=
  compare_lambda_function_layer_semantics.2.2.1 _ _ _ _ (by decide) (by decide)

/-- Appending to a fixed string on the left is injective. -/
theorem string_append_left_cancel {c k₁ k₂ : String} (h : c ++ k₁ = c ++ k₂) :
    k₁ = k₂ := by
  have hd : (c ++ k₁).data = (c ++ k₂).data := congrArg String.data h
  rw [String.data_append, String.data_append] at hd
  exact String.ext (List.append_cancel_left hd)

/-- An association-list lookup succeeds exactly when the key occurs among the
keys of the list. -/
theorem lookup_isSome_iff {β : Type} (l : List (String × β)) (k : String) :
    (l.lookup k).isSome ↔ k ∈ l.map Prod.fst := by
  induction l with
  | nil => simp [List.lookup]
  | cons x xs ih =>
      rcases x with ⟨a, b⟩
      by_cases h : k = a
      · subst h
        simp [List.lookup]
      · have hb : (k == a) = false := beq_eq_false_iff_ne.mpr h
        simp only [List.lookup, hb, List.map_cons, List.mem_cons]
        rw [ih]
        simp [h]

/-- A filterMap whose emitted elements all fail the predicate filters to the
empty list. -/
theorem filterMap_filter_none {α β : Type} (f : α → Option β) (p : β → Bool)
    (l : List α) (h : ∀ x ∈ l, ∀ e, f x = some e → p e = false) :
    (l.filterMap f).filter p = [] := by
  rw [List.filter_eq_nil_iff]
  intro e he
  obtain ⟨y, hy, hfy⟩ := List.mem_filterMap.mp he
  simp [h y hy e hfy]

/-- Over a duplicate-free list containing `k`, if only `k` can emit an
element satisfying the predicate and everything `k` emits satisfies it, the
filtered filterMap is exactly what `k` emits. -/
theorem filterMap_filter_single {α β : Type} (f : α → Option β) (p : β → Bool)
    (k : α) (hk : ∀ e, f k = some e → p e = true) :
    ∀ l : List α, l.Nodup → k ∈ l →
      (∀ x ∈ l, x ≠ k → ∀ e, f x = some e → p e = false) →
      (l.filterMap f).filter p = (f k).toList := by
  intro l
  induction l with
  | nil => intro _ hmem _; cases hmem
  | cons x xs ih =>
      intro hl hmem hoth
      rcases List.nodup_cons.mp hl with ⟨hx, hxs⟩
      by_cases hxk : x = k
      · subst hxk
        have hzero : (xs.filterMap f).filter p = [] :=
          filterMap_filter_none f p xs fun y hy e hfy =>
            hoth y (List.mem_cons_of_mem x hy) (fun hh => hx (hh ▸ hy)) e hfy
        cases hf : f x with
        | none =>
            rw [List.filterMap_cons_none hf, hzero]
            rfl
        | some e =>
            rw [List.filterMap_cons_some hf, List.filter_cons_of_pos (hk e hf),
              hzero]
            rfl
      · have hmem' : k ∈ xs := by
          rcases List.mem_cons.mp hmem with h1 | h1
          · exact absurd h1.symm hxk
          · exact h1
        have hoth' : ∀ y ∈ xs, y ≠ k → ∀ e, f y = some e → p e = false :=
          fun y hy => hoth y (List.mem_cons_of_mem x hy)
        cases hf : f x with
        | none =>
            rw [List.filterMap_cons_none hf]
            exact ih hxs hmem' hoth'
        | some e =>
            rw [List.filterMap_cons_some hf, List.filter_cons_of_neg
              (by simp [hoth x (List.mem_cons_self x xs) hxk e hf])]
            exact ih hxs hmem' hoth'

/-- The dictionary comparison, filtered to the entries whose path addresses
key `k`, is exactly what the loop body emits for `k`. -/
theorem compare_dicts_filter_key (E A : List (String × String)) (ctx k : String) :
    (compare_dicts E A ctx).filter
        (fun e => e.path == some (ctx ++ "." ++ k)) =
      (compare_dict_key E A ctx k).toList := by
  have hk : ∀ e, compare_dict_key E A ctx k = some e →
      (e.path == some (ctx ++ "." ++ k)) = true := by
    intro e he
    rw [(compare_dict_key_shape E A ctx k e he).1]
    simp
  have hoth : ∀ x, x ≠ k → ∀ e, compare_dict_key E A ctx x = some e →
      (e.path == some (ctx ++ "." ++ k)) = false := by
    intro x hxk e he
    rw [(compare_dict_key_shape E A ctx x e he).1]
    simp only [beq_eq_false_iff_ne, ne_eq, Option.some.injEq]
    exact fun hp => hxk (string_append_left_cancel hp)
  by_cases hmem : k ∈ (E.map Prod.fst ++ A.map Prod.fst).dedup
  · exact filterMap_filter_single _ _ k hk _ (List.nodup_dedup _) hmem
      fun x _ hxk => hoth x hxk
  · have hnone : compare_dict_key E A ctx k = none := by
      rw [List.mem_dedup, List.mem_append] at hmem
      push_neg at hmem
      have h1 : E.lookup k = none := by
        rw [← Option.not_isSome_iff_eq_none, lookup_isSome_iff]
        exact hmem.1
      have h2 : A.lookup k = none := by
        rw [← Option.not_isSome_iff_eq_none, lookup_isSome_iff]
        exact hmem.2
      simp [compare_dict_key, h1, h2]
    rw [show compare_dicts E A ctx =
        ((E.map Prod.fst ++ A.map Prod.fst).dedup).filterMap
          (compare_dict_key E A ctx) from rfl]
    rw [filterMap_filter_none _ _ _
      fun x hx e he => hoth x (fun hh => hmem (hh ▸ hx)) e he]
    rw [hnone]
    rfl

/-- Claim C5: for every key `k`, the entries of
`compare_lambda_function`'s output addressing path `Environment.k` are:
none when `k` is in neither environment or has equal values in both; exactly
one `missingInAWS` entry when `k` is only in the expected environment;
exactly one `notInTemplate` entry when `k` is only in the actual
environment; exactly one `dictMismatch` entry when `k` is in both with
different values. -/
theorem compare_lambda_function_env_per_key (name : String)
    (expected actual : Config) (k : String) :
    (compare_lambda_function name expected (some actual)).1.filter
        (fun e => e.path == some ("Environment" ++ "." ++ k)) =
      (match expected.Environment.lookup k, actual.Environment.lookup k with
       | some v, none => [DiffEntry.missingInAWS ("Environment" ++ "." ++ k) v]
       | none, some v => [DiffEntry.notInTemplate ("Environment" ++ "." ++ k) v]
       | some ev, some av =>
           if ev ≠ av then
             [DiffEntry.dictMismatch ("Environment" ++ "." ++ k) ev av]
           else []
       | none, none => []) := by
  show ((compare_scalars expected actual ++
      compare_dicts expected.Environment actual.Environment "Environment") ++
      compare_layers expected.Layers actual.Layers).filter _ = _
  rw [List.filter_append, List.filter_append]
  have hs : (compare_scalars expected actual).filter
      (fun e => e.path == some ("Environment" ++ "." ++ k)) = [] :=
    List.filter_eq_nil_iff.mpr fun e he => by
      simp [(compare_scalars_shape expected actual e he).1]
  have hlay : (compare_layers expected.Layers actual.Layers).filter
      (fun e => e.path == some ("Environment" ++ "." ++ k)) = [] :=
    List.filter_eq_nil_iff.mpr fun e he => by
      simp [(compare_layers_shape expected.Layers actual.Layers e he).1]
  rw [hs, hlay, compare_dicts_filter_key]
  simp only [List.nil_append, List.append_nil]
  simp only [compare_dict_key]
  cases hE : expected.Environment.lookup k with
  | none =>
      cases hA : actual.Environment.lookup k with
      | none => simp
      | some v => simp
  | some ev =>
      cases hA : actual.Environment.lookup k with
      | none => simp
      | some av =>
          by_cases hv : ev = av
          · simp [hv]
          · simp [hv]

/-- Witness for C8 at concrete inputs: an expected pair differing in `Role`
and `Policies`, and an actual pair differing in `Role`. -/
theorem compare_lambda_function_ignores_role_policies_witness :
    compare_lambda_function "f"
        { sampleConfig with Role := some (Val.vStr "arn:aws:iam::1:role/a") }
        (some { sampleConfig with Role := some (Val.vStr "arn:aws:iam::1:role/b") }) =
      compare_lambda_function "f"
        { sampleConfig with Policies := some [Val.vStr "AWSLambdaBasicExecutionRole"] }
        (some sampleConfig) :=
  compare_lambda_function_ignores_role_policies "f" _ _ _ _
    ⟨rfl, rfl, rfl, rfl, rfl, rfl, rfl, rfl⟩
    ⟨rfl, rfl, rfl, rfl, rfl, rfl, rfl, rfl⟩
